import Mathlib

/-!
LucianoCasa/otel: the postal code to weather pipeline.

A shallow embedding of the two HTTP services and of the telemetry bootstrap:

* `src/service-b/main.go`: `cepRegex`, `CepService.Lookup`, `WeatherService.GetTempC`,
  `weatherHandler`;
* `src/cmd/service-a/main.go`: `cepRegex`, the gateway `handler`;
* `src/pkg/tracing/tracing.go` and `src/service-a/pkg/tracing/tracing.go`: `InitTracer`.

Remote collaborators (HTTP transport, JSON decoding, the collector) are explicit
parameters; every function returns its result together with the list of effects it
performed, in program order.
-/

namespace Otel

/-! ## Regular expressions (the fragment of Go `regexp` syntax used by `cepRegex`) -/

/-- Abstract syntax of the regular expressions the pattern parser produces. -/
inductive Regex where
  | empty : Regex
  | beginText : Regex
  | endText : Regex
  | digit : Regex
  | lit (c : Char) : Regex
  | seq (r₁ r₂ : Regex) : Regex
  | rep (r : Regex) (n : Nat) : Regex
  deriving DecidableEq, Repr

/-- Go `\d` is the Perl class `[0-9]`: ASCII decimal digits only. -/
def isAsciiDigit (c : Char) : Bool := decide ('0' ≤ c) && decide (c ≤ '9')

/-- Reads the decimal number of a `{n}` repetition; returns it with the text after `}`. -/
def parseCount : List Char → Nat → Bool → Option (Nat × List Char)
  | [], _, _ => none
  | c :: cs, acc, seen =>
    if c = '}' then (if seen then some (acc, cs) else none)
    else if isAsciiDigit c then parseCount cs (acc * 10 + (c.toNat - '0'.toNat)) true
    else none

/-- Parses a pattern left to right: each atom is `^`, `$`, `\d` or a literal, optionally
followed by `{n}`; `acc` is the concatenation parsed so far. -/
def parseSeq : Nat → List Char → Regex → Option Regex
  | 0, _, _ => none
  | _ + 1, [], acc => some acc
  | fuel + 1, c :: cs, acc =>
    let atom : Option (Regex × List Char) :=
      if c = '^' then some (Regex.beginText, cs)
      else if c = '$' then some (Regex.endText, cs)
      else if c = '\\' then
        match cs with
        | 'd' :: cs' => some (Regex.digit, cs')
        | _ => none
      else if c = '{' ∨ c = '}' then none
      else some (Regex.lit c, cs)
    match atom with
    | none => none
    | some (a, '{' :: rest) =>
      match parseCount rest 0 false with
      | none => none
      | some (n, rest') => parseSeq fuel rest' (Regex.seq acc (Regex.rep a n))
    | some (a, rest) => parseSeq fuel rest (Regex.seq acc a)

/-- The function `regexp.Compile` on the supported fragment. -/
def compile (pattern : String) : Option Regex :=
  parseSeq (pattern.length + 1) pattern.toList Regex.empty

/-- The function `regexp.MustCompile`: a pattern that does not parse panics in Go; here it
yields the expression that matches nothing the handlers could accept. -/
def mustCompile (pattern : String) : Regex :=
  (compile pattern).getD (Regex.seq Regex.endText Regex.digit)

/-- Applies `f` to every state of `l`, `n` times in a row. -/
def iterMatch (f : Nat → List Char → List (Nat × List Char)) :
    Nat → List (Nat × List Char) → List (Nat × List Char)
  | 0, l => l
  | n + 1, l => iterMatch f n (l.flatMap (fun st => f st.1 st.2))

/-- Every way `r` can match at offset `pos`, where `s` is the text from `pos` on: the list
of (offset, remaining text) pairs after the match. -/
def matchAt : Regex → Nat → List Char → List (Nat × List Char)
  | Regex.empty, pos, s => [(pos, s)]
  | Regex.beginText, pos, s => if pos = 0 then [(pos, s)] else []
  | Regex.endText, pos, s => if s = [] then [(pos, s)] else []
  | Regex.digit, pos, s =>
    match s with
    | [] => []
    | c :: t => if isAsciiDigit c then [(pos + 1, t)] else []
  | Regex.lit a, pos, s =>
    match s with
    | [] => []
    | c :: t => if c = a then [(pos + 1, t)] else []
  | Regex.seq r₁ r₂, pos, s => (matchAt r₁ pos s).flatMap (fun st => matchAt r₂ st.1 st.2)
  | Regex.rep r n, pos, s => iterMatch (fun p t => matchAt r p t) n [(pos, s)]

/-- Unanchored search: tries the expression at offset `pos` and at every later offset. -/
def searchFrom (re : Regex) : Nat → List Char → Bool
  | pos, [] => !(matchAt re pos []).isEmpty
  | pos, c :: t => !(matchAt re pos (c :: t)).isEmpty || searchFrom re (pos + 1) t

/-- The method `(*Regexp).MatchString`: whether the text contains any match. -/
def MatchString (re : Regex) (s : String) : Bool := searchFrom re 0 s.toList

/-- The pattern of both services:
`cepRegex = regexp.MustCompile("^\d{8}$")`
(`src/service-b/main.go:37`, `src/cmd/service-a/main.go:17`). -/
def cepRegex : Regex := mustCompile "^\\d{8}$"

/-! ## Go `float64` arithmetic (IEEE 754 binary64, round to nearest, ties to even) -/

/-- Values of Go `float64`. A finite value is `(-1)^neg * m * 2^e` in canonical form:
`e = -1074` and `m < 2^52` (zero or subnormal), or `-1074 ≤ e ≤ 971` and
`2^52 ≤ m < 2^53` (normal). -/
inductive F64 where
  | finite (neg : Bool) (m : Nat) (e : Int) : F64
  | inf (neg : Bool) : F64
  | nan : F64
  deriving DecidableEq, Repr

namespace F64

/-- Counts the binary digits of `m`, by halving at most `fuel` times. -/
def bitLenAux : Nat → Nat → Nat
  | 0, _ => 0
  | fuel + 1, m => if m = 0 then 0 else bitLenAux fuel (m / 2) + 1

/-- Number of binary digits of `m` (`m` halvings always suffice). -/
def bitLen (m : Nat) : Nat := bitLenAux m m

/-- Rounds the exact value `(-1)^neg * m * 2^e` to the nearest binary64, ties to even;
values beyond the largest finite double become infinite. -/
def round (neg : Bool) (m : Nat) (e : Int) : F64 :=
  if m = 0 then finite neg 0 (-1074)
  else
    let e' : Int := max (e + (bitLen m : Int) - 53) (-1074)
    if e' ≤ e then finite neg (m * 2 ^ (e - e').toNat) e'
    else
      let k : Nat := (e' - e).toNat
      let q : Nat := m / 2 ^ k
      let r : Nat := m % 2 ^ k
      let half : Nat := 2 ^ (k - 1)
      let q' : Nat := if r > half ∨ (r = half ∧ q % 2 = 1) then q + 1 else q
      let m' : Nat := if q' = 2 ^ 53 then 2 ^ 52 else q'
      let e'' : Int := if q' = 2 ^ 53 then e' + 1 else e'
      if e'' > 971 then inf neg else finite neg m' e''

/-- Conversion of an integer constant such as `32` or `273`. -/
def ofNat (n : Nat) : F64 := round false n 0

/-- Conversion of the decimal constant `n / d` (`d > 0`) such as `1.8 = 18 / 10`: the
quotient is taken with spare bits and a sticky bit for the remainder, then rounded once. -/
def ofRat (n d : Nat) : F64 :=
  let k : Nat := 56 + bitLen d
  let q : Nat := n * 2 ^ k / d
  let sticky : Nat := if n * 2 ^ k % d = 0 then 0 else 1
  round false (2 * q + sticky) (-(k : Int) - 1)

/-- Go `x * y` on `float64`. -/
def mul : F64 → F64 → F64
  | finite n₁ m₁ e₁, finite n₂ m₂ e₂ => round (xor n₁ n₂) (m₁ * m₂) (e₁ + e₂)
  | finite n₁ m₁ _, inf n₂ => if m₁ = 0 then nan else inf (xor n₁ n₂)
  | inf n₁, finite n₂ m₂ _ => if m₂ = 0 then nan else inf (xor n₁ n₂)
  | inf n₁, inf n₂ => inf (xor n₁ n₂)
  | _, _ => nan

/-- The exact sum of two finite values, as a signed multiple of `2 ^ min e₁ e₂`. -/
def exactSum (n₁ : Bool) (m₁ : Nat) (e₁ : Int) (n₂ : Bool) (m₂ : Nat) (e₂ : Int) : Int :=
  let e : Int := min e₁ e₂
  (if n₁ then -1 else 1) * ((m₁ * 2 ^ (e₁ - e).toNat : Nat) : Int) +
    (if n₂ then -1 else 1) * ((m₂ * 2 ^ (e₂ - e).toNat : Nat) : Int)

/-- Go `x + y` on `float64`. -/
def add : F64 → F64 → F64
  | finite n₁ m₁ e₁, finite n₂ m₂ e₂ =>
    let s : Int := exactSum n₁ m₁ e₁ n₂ m₂ e₂
    if s = 0 then finite (n₁ && n₂) 0 (-1074)
    else round (decide (s < 0)) s.natAbs (min e₁ e₂)
  | finite _ _ _, inf n₂ => inf n₂
  | inf n₁, finite _ _ _ => inf n₁
  | inf n₁, inf n₂ => if n₁ = n₂ then inf n₁ else nan
  | _, _ => nan

/-- The fused form `x * y + z` with a single rounding, which the Go specification lets a
compiler emit in place of `add (mul x y) z`. -/
def fma : F64 → F64 → F64 → F64
  | finite n₁ m₁ e₁, finite n₂ m₂ e₂, finite n₃ m₃ e₃ =>
    let s : Int := exactSum (xor n₁ n₂) (m₁ * m₂) (e₁ + e₂) n₃ m₃ e₃
    if s = 0 then finite (xor n₁ n₂ && n₃) 0 (-1074)
    else round (decide (s < 0)) s.natAbs (min (e₁ + e₂) e₃)
  | x, y, z => add (mul x y) z

/-- The expression `x * y + z` as compiled: Go lets an implementation fuse the two
operations into one with a single rounding (as on arm64), or round after each (as on
amd64); `fused` says which. -/
def mulAdd (fused : Bool) (x y z : F64) : F64 :=
  if fused then fma x y z else add (mul x y) z

/-- Whether the value is finite (neither infinite nor NaN). -/
def isFinite : F64 → Bool
  | finite _ _ _ => true
  | _ => false

/-- The reading of a double as a number, stated without the rounding function: `x` is
non-negative, finite, and its value `m * 2^e` is exactly `n / d`. -/
def hasValue (x : F64) (n d : Nat) : Prop :=
  match x with
  | finite false m e => m * 2 ^ e.toNat * d = n * 2 ^ (-e).toNat
  | _ => False

instance (x : F64) (n d : Nat) : Decidable (hasValue x n d) := by
  unfold hasValue
  split <;> infer_instance

/-- The reading of a double as the one printed for a decimal, stated without the rounding
function: `x` is a positive normal double with negative exponent, and `n / d` lies within
half a unit in the last place of it. -/
def isNearest (x : F64) (n d : Nat) : Prop :=
  match x with
  | finite false m e =>
    2 ^ 52 ≤ m ∧ m < 2 ^ 53 ∧ e < 0 ∧
      2 * ((m * d : Nat) - (n * 2 ^ (-e).toNat : Nat) : Int).natAbs ≤ d
  | _ => False

instance (x : F64) (n d : Nat) : Decidable (isNearest x n d) := by
  unfold isNearest
  split <;> infer_instance

end F64

/-! ## Shared HTTP vocabulary -/

/-- Go `error` values: the sentinels of `src/service-b/main.go:44-47`, and the errors made
by library code (request construction, transport, JSON decoding, dialing). -/
inductive Error where
  | ErrCepNotFound : Error
  | ErrCepAPI : Error
  | ErrWeatherAPI : Error
  | ErrWeather : Error
  | lib (msg : String) : Error
  deriving DecidableEq, Repr

/-- An outbound `*http.Request`. -/
structure HTTPRequest where
  Method : String
  URL : String
  deriving DecidableEq, Repr

/-- An upstream `*http.Response`: status code and raw body. -/
structure HTTPResponse where
  StatusCode : Nat
  Body : String
  deriving DecidableEq, Repr

/-- The type `*http.Client`: `Do` receives the request pointer (`none` is Go `nil`) and
yields a response or a transport error. -/
structure HTTPClient where
  Do : Option HTTPRequest → Except Error HTTPResponse

/-- A value stored in the response map (`map[string]any`). -/
inductive JSONValue where
  | str (s : String) : JSONValue
  | num (x : F64) : JSONValue
  deriving DecidableEq, Repr

/-- Whether `json.Encoder.Encode` accepts the value: it reports an unsupported value for
a float that is NaN or infinite. -/
def JSONValue.encodable : JSONValue → Bool
  | JSONValue.str _ => true
  | JSONValue.num x => x.isFinite

/-- What a handler writes as the body. -/
inductive Body where
  /-- Nothing was written. -/
  | empty : Body
  /-- The line written by `http.Error(w, msg, code)`. -/
  | message (msg : String) : Body
  /-- The JSON object written by `json.NewEncoder(w).Encode`, entries in source order. -/
  | json (obj : List (String × JSONValue)) : Body
  /-- Bytes copied from an upstream body by `io.Copy`. -/
  | raw (bytes : String) : Body
  deriving DecidableEq, Repr

/-- The statement `_ = json.NewEncoder(w).Encode(resp)`: the encoder writes the object only
when every value encodes; otherwise it returns an error before writing anything, and the
source discards that error. -/
def encodeBody (obj : List (String × JSONValue)) : Body :=
  if obj.all (fun kv => kv.2.encodable) then Body.json obj else Body.empty

/-- The fields of a JSON report in a body; none for the other kinds of body. -/
def Body.fields : Body → List (String × JSONValue)
  | Body.json obj => obj
  | _ => []

/-- What the `http.ResponseWriter` has received when the handler returns. -/
structure Response where
  StatusCode : Nat
  ContentType : String
  Body : Body
  deriving DecidableEq, Repr

/-- The function `http.Error`: plain-text content type, the status code, the message. -/
def httpError (msg : String) (code : Nat) : Response :=
  { StatusCode := code, ContentType := "text/plain; charset=utf-8", Body := Body.message msg }

def StatusOK : Nat := 200
def StatusBadRequest : Nat := 400
def StatusNotFound : Nat := 404
def StatusMethodNotAllowed : Nat := 405
def StatusUnprocessableEntity : Nat := 422
def StatusInternalServerError : Nat := 500
def StatusBadGateway : Nat := 502
def MethodGet : String := "GET"
def MethodPost : String := "POST"

/-- Effects of the handlers, in program order. -/
inductive Effect where
  /-- The call `cepSvc.Lookup(ctx, cep)`. -/
  | lookup (cep : String) : Effect
  /-- The call `weatherSvc.GetTempC(ctx, city)`. -/
  | getTempC (city : String) : Effect
  /-- An outbound call `client.Do(req)`. -/
  | httpDo (req : Option HTTPRequest) : Effect
  /-- The gateway decoding the request body. -/
  | decodeBody (body : String) : Effect
  deriving DecidableEq, Repr

/-! ## Service B: `src/service-b/main.go` -/

namespace ServiceB

structure CepService where
  BaseURL : String
  HTTPClient : HTTPClient

structure WeatherService where
  BaseURL : String
  APIKey : String
  HTTPClient : HTTPClient

def cepBaseURL : String := "https://viacep.com.br/ws"
def weatherBaseURL : String := "http://api.weatherapi.com/v1"
def ErrMsgCepNotFound : String := "can not find zipcode"
def ErrMsgInvalidCep : String := "invalid zipcode"
def ErrMsgCepAPI : String := "cep status not ok"
def ErrMsgWeatherAPI : String := "weather status not ok"

/-- The text `err.Error()` of an error value. -/
def errorText : Error → String
  | Error.ErrCepNotFound => ErrMsgCepNotFound
  | Error.ErrCepAPI => ErrMsgCepAPI
  | Error.ErrWeatherAPI => ErrMsgWeatherAPI
  | Error.ErrWeather => "weather error"
  | Error.lib msg => msg

/-- The local type `cepResp` of `Lookup`. -/
structure cepResp where
  Localidade : String
  Erro : Bool
  deriving DecidableEq, Repr

/-- Library and compiler collaborators of service B. -/
structure Lib where
  /-- Whether the compiler fuses `tempC*1.8 + 32` into one multiply-add. -/
  fusedMulAdd : Bool
  /-- The function `http.NewRequestWithContext(ctx, method, url, nil)`. -/
  newRequest : String → String → Except Error HTTPRequest
  /-- Decoding an upstream body into `cepResp`. -/
  decodeCepResp : String → Except Error cepResp
  /-- Decoding an upstream body into `wData`, read at `wData.Current.TempC`. -/
  decodeTempC : String → Except Error F64
  /-- The function `url.QueryEscape`. -/
  queryEscape : String → String

/-- The method `(*CepService).Lookup` (lines 80-115); span bookkeeping is left out. -/
def CepService.Lookup (lib : Lib) (c : CepService) (cep : String) :
    Except Error String × List Effect :=
  let u := c.BaseURL ++ "/" ++ cep ++ "/json/"
  match lib.newRequest MethodGet u with
  | Except.error err => (Except.error err, [])
  | Except.ok req =>
    match c.HTTPClient.Do (some req) with
    | Except.error err => (Except.error err, [Effect.httpDo (some req)])
    | Except.ok resp =>
      if resp.StatusCode ≠ StatusOK then (Except.error Error.ErrCepAPI, [Effect.httpDo (some req)])
      else
        match lib.decodeCepResp resp.Body with
        | Except.error err => (Except.error err, [Effect.httpDo (some req)])
        | Except.ok data =>
          if data.Erro || data.Localidade == "" then
            (Except.error Error.ErrCepNotFound, [Effect.httpDo (some req)])
          else (Except.ok data.Localidade, [Effect.httpDo (some req)])

/-- The method `(*WeatherService).GetTempC` (lines 117-149); span bookkeeping is left out. -/
def WeatherService.GetTempC (lib : Lib) (wSvc : WeatherService) (city : String) :
    Except Error F64 × List Effect :=
  let u := wSvc.BaseURL ++ "/current.json?key=" ++ wSvc.APIKey ++ "&q=" ++ lib.queryEscape city
  match lib.newRequest MethodGet u with
  | Except.error err => (Except.error err, [])
  | Except.ok req =>
    match wSvc.HTTPClient.Do (some req) with
    | Except.error err => (Except.error err, [Effect.httpDo (some req)])
    | Except.ok resp =>
      if resp.StatusCode ≠ StatusOK then
        (Except.error Error.ErrWeatherAPI, [Effect.httpDo (some req)])
      else
        match lib.decodeTempC resp.Body with
        | Except.error err => (Except.error err, [Effect.httpDo (some req)])
        | Except.ok tempC => (Except.ok tempC, [Effect.httpDo (some req)])

/-- The inbound request of service B: its method and its query string. -/
structure Request where
  Method : String
  Query : List (String × String)
  deriving DecidableEq, Repr

/-- The call `r.URL.Query().Get(key)`: the first value of the key, or the empty string. -/
def Request.queryGet (r : Request) (key : String) : String :=
  (r.Query.lookup key).getD ""

/-- The function `weatherHandler` (lines 151-177): the response written and the effects
performed. On the success path the handler sets the content type and encodes the map; no
status is set, so it is the implicit 200, also when the encoder wrote nothing. -/
def weatherHandler (lib : Lib) (cepSvc : CepService) (weatherSvc : WeatherService)
    (r : Request) : Response × List Effect :=
  let cep := r.queryGet "cep"
  if !MatchString cepRegex cep then (httpError ErrMsgInvalidCep StatusUnprocessableEntity, [])
  else
    let l := cepSvc.Lookup lib cep
    match l.1 with
    | Except.error _ => (httpError ErrMsgCepNotFound StatusNotFound, Effect.lookup cep :: l.2)
    | Except.ok city =>
      let t := weatherSvc.GetTempC lib city
      match t.1 with
      | Except.error _ =>
        (httpError (errorText Error.ErrWeather) StatusInternalServerError,
          Effect.lookup cep :: l.2 ++ Effect.getTempC city :: t.2)
      | Except.ok tempC =>
        ({ StatusCode := StatusOK, ContentType := "application/json",
           Body := encodeBody [
             ("city", JSONValue.str city),
             ("temp_C", JSONValue.num tempC),
             ("temp_F", JSONValue.num
               (F64.mulAdd lib.fusedMulAdd tempC (F64.ofRat 18 10) (F64.ofNat 32))),
             ("temp_K", JSONValue.num (F64.add tempC (F64.ofNat 273)))] },
          Effect.lookup cep :: l.2 ++ Effect.getTempC city :: t.2)

end ServiceB

/-! ## Service A: `src/cmd/service-a/main.go` -/

namespace ServiceA

/-- The type `cepReq`, the decoded request body. -/
structure cepReq where
  CEP : String
  deriving DecidableEq, Repr

def ErrMethodNotAllowed : String := "method not allowed"
def ErrInvalidBody : String := "invalid body"
def ErrMsgInvalidCep : String := "invalid cep"
def ErrServiceAUnreachable : String := "service-a unreachable"

/-- Library collaborators of service A. -/
structure Lib where
  /-- The function `http.NewRequestWithContext(ctx, method, url, nil)`. -/
  newRequest : String → String → Except Error HTTPRequest
  /-- Decoding the request body into `cepReq`. -/
  decodeCepReq : String → Except Error cepReq

/-- The inbound request of the gateway: its method and its body. -/
structure Request where
  Method : String
  Body : String
  deriving DecidableEq, Repr

/-- What the gateway handler leaves behind: the response it wrote, or a panic before
anything was written (no status reaches the caller). -/
inductive Served where
  | wrote (resp : Response) : Served
  | panicked : Served
  deriving DecidableEq, Repr

/-- The status code the caller receives, if any. -/
def Served.status : Served → Option Nat
  | Served.wrote resp => some resp.StatusCode
  | Served.panicked => none

/-- The closure `handler` of `main` (lines 56-82), over the `client` and `bURL` it captures.
The source discards the error of request construction (`req, _ := ...`): when construction
fails `req` is nil and `client.Do(nil)` panics on the nil request before anything is sent
or written. -/
def handler (lib : Lib) (client : HTTPClient) (bURL : String) (r : Request) :
    Served × List Effect :=
  if r.Method ≠ MethodPost then
    (Served.wrote (httpError ErrMethodNotAllowed StatusMethodNotAllowed), [])
  else
    match lib.decodeCepReq r.Body with
    | Except.error _ =>
      (Served.wrote (httpError ErrInvalidBody StatusBadRequest), [Effect.decodeBody r.Body])
    | Except.ok input =>
      if !MatchString cepRegex input.CEP then
        (Served.wrote (httpError ErrMsgInvalidCep StatusUnprocessableEntity),
          [Effect.decodeBody r.Body])
      else
        match lib.newRequest MethodGet (bURL ++ "?cep=" ++ input.CEP) with
        | Except.error _ => (Served.panicked, [Effect.decodeBody r.Body])
        | Except.ok req =>
          match client.Do (some req) with
          | Except.error _ =>
            (Served.wrote (httpError ErrServiceAUnreachable StatusBadGateway),
              [Effect.decodeBody r.Body, Effect.httpDo (some req)])
          | Except.ok resp =>
            (Served.wrote { StatusCode := resp.StatusCode, ContentType := "application/json",
                            Body := Body.raw resp.Body },
              [Effect.decodeBody r.Body, Effect.httpDo (some req)])

end ServiceA

/-! ## Telemetry bootstrap -/

/-- The resource describing the service. -/
structure Resource where
  serviceName : String
  deriving DecidableEq, Repr

/-- A gRPC client connection to the collector. -/
structure ClientConn where
  target : String
  deriving DecidableEq, Repr

/-- An OTLP trace exporter bound to a connection (`none` is a nil `*grpc.ClientConn`). -/
structure Exporter where
  conn : Option ClientConn
  deriving DecidableEq, Repr

/-- The tracer provider built by `sdktrace.NewTracerProvider`. -/
structure TracerProvider where
  /-- Whether `sdktrace.WithSampler(sdktrace.AlwaysSample())` was passed. -/
  alwaysSample : Bool
  resource : Resource
  exporter : Exporter
  deriving DecidableEq, Repr

/-- Effects of the bootstrap, in program order. -/
inductive TraceEffect where
  /-- The call `context.WithTimeout(ctx, n * time.Second)` that bounds the next attempt. -/
  | withTimeout (seconds : Nat) : TraceEffect
  /-- A connection attempt, with the loop counter where there is one, and its target. -/
  | dial (attempt : Nat) (endpoint : String) : TraceEffect
  /-- A `log.Printf` line: its text and the error value it formats, if any. -/
  | logPrintf (msg : String) (err : Option Error) : TraceEffect
  /-- A `log.Fatalf` line, which prints and then ends the process with status 1. -/
  | logFatalf (msg : String) (err : Option Error) : TraceEffect
  /-- The call `time.Sleep(n * time.Second)`. -/
  | sleep (seconds : Nat) : TraceEffect
  | newExporter (conn : Option ClientConn) : TraceEffect
  | setTracerProvider (tp : TracerProvider) : TraceEffect
  | setTextMapPropagator : TraceEffect
  | providerShutdown (tp : TracerProvider) : TraceEffect
  deriving DecidableEq, Repr

/-- The returned `func()`: the empty closure `func() {}` or the closure that shuts the
provider down. -/
inductive Shutdown where
  | noop : Shutdown
  | provider (tp : TracerProvider) : Shutdown
  deriving DecidableEq, Repr

/-- How a call of `InitTracer` ends: it returns the closure to its caller, or the process
has exited (`log.Fatalf` ends it with status 1). -/
inductive Outcome where
  | returned (shutdown : Shutdown) : Outcome
  | exited (status : Nat) : Outcome
  deriving DecidableEq, Repr

/-- The tracer provider installed by a run, if any. -/
def installedProvider : List TraceEffect → Option TracerProvider
  | [] => none
  | TraceEffect.setTracerProvider tp :: _ => some tp
  | _ :: rest => installedProvider rest

/-- The loop counters of the connection attempts of a run, in order. -/
def dialAttempts : List TraceEffect → List Nat
  | [] => []
  | TraceEffect.dial i _ :: rest => i :: dialAttempts rest
  | _ :: rest => dialAttempts rest

namespace PkgTracing

def ErrOTELProvider : String := "otel provider setup error"
def FailedToCreateResource : String := "failed to create resource"

/-- The call `resource.New(ctx, resource.WithAttributes(semconv.ServiceName(name)))`
(lines 34-38). With this single option the only detector is the one that returns the
given attributes; it reports no error, so the call yields the resource. -/
def resourceNew (serviceName : String) : Except Error Resource :=
  Except.ok { serviceName := serviceName }

/-- The collaborators of the bootstrap. -/
structure Env where
  /-- The blocking `grpc.DialContext(cctx, endpoint, ...)` of loop iteration `i`, under the
  deadline of `cctx`: it yields a connection, or an error at the deadline at the latest. -/
  dialContext : Nat → String → Except Error ClientConn
  /-- The call `otlptracegrpc.New(ctx, otlptracegrpc.WithGRPCConn(conn))`. -/
  newExporter : Option ClientConn → Except Error Exporter

/-- The retry loop `for i := 1; i <= 5; i++` (lines 46-59), entered with counter `i`, the
current values of the variables `conn` and `err` (`none` is nil), and the effects so far.
Yields the values of `conn` and `err` when the loop is left, with the effects. -/
def dialLoop (env : Env) (endpoint : String) (i : Nat) (conn : Option ClientConn)
    (err : Option Error) (fx : List TraceEffect) :
    (Option ClientConn × Option Error) × List TraceEffect :=
  if i ≤ 5 then
    match env.dialContext i endpoint with
    | Except.ok c =>
      ((some c, none), fx ++ [TraceEffect.withTimeout 5, TraceEffect.dial i endpoint])
    | Except.error e =>
      dialLoop env endpoint (i + 1) none (some e)
        (fx ++ [TraceEffect.withTimeout 5, TraceEffect.dial i endpoint,
          TraceEffect.logPrintf (ErrOTELProvider ++ " (tentativa " ++ toString i ++ "/5)")
            (some e),
          TraceEffect.sleep 2])
  else ((conn, err), fx)
termination_by 6 - i

/-- The function `InitTracer(serviceName, endpoint string) func()` (lines 25-87). -/
def InitTracer (env : Env) (serviceName endpoint : String) : Outcome × List TraceEffect :=
  let endpoint := if endpoint == "" then "otel-collector:4317" else endpoint
  match resourceNew serviceName with
  | Except.error err =>
    (Outcome.returned Shutdown.noop,
      [TraceEffect.logPrintf FailedToCreateResource (some err)])
  | Except.ok res =>
    match dialLoop env endpoint 1 none none [] with
    | ((_, some err), fx) =>
      (Outcome.returned Shutdown.noop,
        fx ++ [TraceEffect.logPrintf " Tracing desativado" (some err)])
    | ((conn, none), fx) =>
      match env.newExporter conn with
      | Except.error err =>
        (Outcome.returned Shutdown.noop,
          fx ++ [TraceEffect.newExporter conn,
            TraceEffect.logPrintf ErrOTELProvider (some err)])
      | Except.ok traceExporter =>
        let tp : TracerProvider :=
          { alwaysSample := true, resource := res, exporter := traceExporter }
        (Outcome.returned (Shutdown.provider tp),
          fx ++ [TraceEffect.newExporter conn, TraceEffect.setTracerProvider tp,
            TraceEffect.setTextMapPropagator,
            TraceEffect.logPrintf (" OTEL tracing inicializado para " ++ serviceName
              ++ " em " ++ endpoint) none])

end PkgTracing

/-! ### `src/service-a/pkg/tracing/tracing.go` (the one-argument `InitTracer`) -/

namespace ServiceAPkgTracing

def ErrOTELProvider : String := "otel provider setup error"

/-- The collaborators of the bootstrap. -/
structure Env where
  /-- The function `os.Getenv`. -/
  getenv : String → String
  /-- The non-blocking `grpc.Dial(endpoint, grpc.WithInsecure())`. -/
  dial : String → Except Error ClientConn
  /-- The call `otlptracegrpc.New(context.Background(), otlptracegrpc.WithGRPCConn(conn))`. -/
  newExporter : Option ClientConn → Except Error Exporter
  /-- The merged resource; the error of `resource.Merge` is discarded by the source. -/
  resourceMerge : String → Resource

/-- The function `InitTracer(serviceName string) func()` (lines 19-55). -/
def InitTracer (env : Env) (serviceName : String) : Outcome × List TraceEffect :=
  let endpoint :=
    if env.getenv "OTEL_EXPORTER_OTLP_ENDPOINT" == "" then "otel-collector:4317"
    else env.getenv "OTEL_EXPORTER_OTLP_ENDPOINT"
  match env.dial endpoint with
  | Except.error err =>
    (Outcome.exited 1,
      [TraceEffect.dial 1 endpoint, TraceEffect.logFatalf ErrOTELProvider (some err)])
  | Except.ok conn =>
    match env.newExporter (some conn) with
    | Except.error err =>
      (Outcome.exited 1,
        [TraceEffect.dial 1 endpoint, TraceEffect.newExporter (some conn),
          TraceEffect.logFatalf ErrOTELProvider (some err)])
    | Except.ok exp =>
      let tp : TracerProvider :=
        { alwaysSample := false, resource := env.resourceMerge serviceName, exporter := exp }
      (Outcome.returned (Shutdown.provider tp),
        [TraceEffect.dial 1 endpoint, TraceEffect.newExporter (some conn),
          TraceEffect.setTracerProvider tp, TraceEffect.setTextMapPropagator])

end ServiceAPkgTracing

/-! ## Test doubles for the scenarios of the specification -/

/-- A request constructor that always succeeds. -/
def okNewRequest (method url : String) : Except Error HTTPRequest :=
  Except.ok { Method := method, URL := url }

/-- A client whose upstream answers every request with the given status and body. -/
def fixedClient (status : Nat) (body : String) : HTTPClient :=
  { Do := fun _ => Except.ok { StatusCode := status, Body := body } }

/-- A client whose every request fails in transport. -/
def downClient : HTTPClient :=
  { Do := fun _ => Except.error (Error.lib "connection refused") }

/-- Library stub: the lookup body decodes to the given city, the weather body to the
given temperature. -/
def stubLib (city : String) (tempC : F64) : ServiceB.Lib :=
  { fusedMulAdd := false
    newRequest := okNewRequest
    decodeCepResp := fun _ => Except.ok { Localidade := city, Erro := false }
    decodeTempC := fun _ => Except.ok tempC
    queryEscape := fun q => q }

/-- The same stub for a compiler that fuses the multiply-add. -/
def stubLibFused (city : String) (tempC : F64) : ServiceB.Lib :=
  { stubLib city tempC with fusedMulAdd := true }

def stubCepSvc (client : HTTPClient) : ServiceB.CepService :=
  { BaseURL := ServiceB.cepBaseURL, HTTPClient := client }

def stubWeatherSvc (client : HTTPClient) : ServiceB.WeatherService :=
  { BaseURL := ServiceB.weatherBaseURL, APIKey := "key", HTTPClient := client }

/-- A request to `/weather?cep=<cep>` of service B. -/
def weatherRequest (method cep : String) : ServiceB.Request :=
  { Method := method, Query := [("cep", cep)] }

/-- Gateway library stub: every body decodes to the given postal code. -/
def gatewayLib (cep : String) : ServiceA.Lib :=
  { newRequest := okNewRequest
    decodeCepReq := fun _ => Except.ok { CEP := cep } }

/-- Gateway library stub: every body decodes to the given postal code, and no request can
be constructed (as with a malformed `SERVICE_B_URL`). -/
def gatewayLibNoRequest (cep : String) : ServiceA.Lib :=
  { newRequest := fun _ _ => Except.error (Error.lib "invalid URL escape")
    decodeCepReq := fun _ => Except.ok { CEP := cep } }

/-- Gateway library stub: no body decodes. -/
def gatewayLibBadBody : ServiceA.Lib :=
  { newRequest := okNewRequest
    decodeCepReq := fun _ => Except.error (Error.lib "unexpected end of JSON input") }

/-- A collector that accepts the third connection attempt. -/
def lateCollector : PkgTracing.Env :=
  { dialContext := fun i ep =>
      if i < 3 then Except.error (Error.lib "context deadline exceeded")
      else Except.ok { target := ep }
    newExporter := fun conn => Except.ok { conn := conn } }

/-- An environment in which `grpc.Dial` reports an error. -/
def dialErrorEnv : ServiceAPkgTracing.Env :=
  { getenv := fun key => if key == "OTEL_EXPORTER_OTLP_ENDPOINT" then "dns:///" else ""
    dial := fun _ => Except.error (Error.lib "failed to build resolver")
    newExporter := fun conn => Except.ok { conn := conn }
    resourceMerge := fun name => { serviceName := name } }

/-! ## The Validation Gate -/

/-- The spec's wording of a well-formed postal code: exactly 8 characters, each an ASCII
decimal digit `'0'..'9'`. -/
def EightAsciiDigits (s : String) : Prop :=
  s.length = 8 ∧ ∀ c ∈ s.toList, '0' ≤ c ∧ c ≤ '9'

instance (s : String) : Decidable (EightAsciiDigits s) := by
  unfold EightAsciiDigits
  infer_instance

theorem cepRegex_eq : cepRegex = Regex.seq (Regex.seq (Regex.seq Regex.empty Regex.beginText)
    (Regex.rep Regex.digit 8)) Regex.endText := by
  decide

theorem iterMatch_nil (f : Nat → List Char → List (Nat × List Char)) (n : Nat) :
    iterMatch f n [] = [] := by
  induction n with
  | zero => rfl
  | succ n ih => simpa [iterMatch] using ih

theorem matchAt_rep_eq (r : Regex) (n pos : Nat) (s : List Char) :
    matchAt (Regex.rep r n) pos s = iterMatch (fun p t => matchAt r p t) n [(pos, s)] := by
  simp [matchAt]

theorem matchAt_seq_eq (r₁ r₂ : Regex) (pos : Nat) (s : List Char) :
    matchAt (Regex.seq r₁ r₂) pos s =
      (matchAt r₁ pos s).flatMap (fun st => matchAt r₂ st.1 st.2) := by
  simp [matchAt]

theorem matchAt_empty_eq (pos : Nat) (s : List Char) :
    matchAt Regex.empty pos s = [(pos, s)] := by
  simp [matchAt]

theorem matchAt_beginText_eq (pos : Nat) (s : List Char) :
    matchAt Regex.beginText pos s = if pos = 0 then [(pos, s)] else [] := by
  simp [matchAt]

theorem matchAt_digit_nil (pos : Nat) : matchAt Regex.digit pos [] = [] := by
  simp [matchAt]

theorem matchAt_digit_cons (pos : Nat) (c : Char) (t : List Char) :
    matchAt Regex.digit pos (c :: t) = if isAsciiDigit c = true then [(pos + 1, t)] else [] := by
  simp [matchAt]

theorem matchAt_endText_eq (pos : Nat) (s : List Char) :
    matchAt Regex.endText pos s = if s = [] then [(pos, s)] else [] := by
  simp [matchAt]

/-- Matching `\d{n}` consumes exactly `n` characters, all of them ASCII digits. -/
theorem matchAt_rep_digit (n pos : Nat) (s : List Char) :
    matchAt (Regex.rep Regex.digit n) pos s =
      if n ≤ s.length ∧ (s.take n).all isAsciiDigit = true then [(pos + n, s.drop n)]
      else [] := by
  induction n generalizing pos s with
  | zero => simp [matchAt_rep_eq, iterMatch]
  | succ n ih =>
    rw [matchAt_rep_eq]
    cases s with
    | nil => simp [iterMatch, matchAt_digit_nil, iterMatch_nil]
    | cons c t =>
      have h := ih (pos + 1) t
      rw [matchAt_rep_eq] at h
      simp only [iterMatch, List.flatMap_cons, List.flatMap_nil, List.append_nil,
        matchAt_digit_cons]
      by_cases hc : isAsciiDigit c = true
      · rw [if_pos hc, h]
        simp [hc, Nat.add_assoc, Nat.add_comm 1 n]
      · rw [if_neg hc, iterMatch_nil]
        simp [hc]

/-- The matches of `cepRegex` at an offset: one, and only where the offset is 0 and the
text from there on is 8 ASCII digits. -/
theorem matchAt_cepRegex (pos : Nat) (s : List Char) :
    (matchAt cepRegex pos s).isEmpty =
      !(decide (pos = 0) && decide (s.length = 8) && s.all isAsciiDigit) := by
  rw [cepRegex_eq, matchAt_seq_eq, matchAt_seq_eq, matchAt_seq_eq, matchAt_empty_eq]
  simp only [List.flatMap_cons, List.flatMap_nil, List.append_nil, matchAt_beginText_eq]
  by_cases hp : pos = 0
  · subst hp
    simp only [if_true, List.flatMap_cons, List.flatMap_nil, List.append_nil]
    rw [matchAt_rep_digit 8 0 s]
    by_cases h8 : 8 ≤ s.length ∧ (s.take 8).all isAsciiDigit = true
    · rw [if_pos h8]
      simp only [List.flatMap_cons, List.flatMap_nil, List.append_nil, matchAt_endText_eq]
      by_cases hd : s.drop 8 = []
      · have hlen : s.length = 8 := by
          have := List.drop_eq_nil_iff.mp hd
          omega
        have htake : s.take 8 = s := List.take_of_length_le (by omega)
        rw [htake] at h8
        rw [if_pos hd]
        simp only [hlen, h8.2]
        rfl
      · have hlen : s.length ≠ 8 := by
          intro h
          exact hd (List.drop_eq_nil_iff.mpr (by omega))
        rw [if_neg hd]
        simp [hlen]
    · rw [if_neg h8]
      have : ¬ (s.length = 8 ∧ s.all isAsciiDigit = true) := by
        rintro ⟨hl, ha⟩
        apply h8
        refine ⟨by omega, ?_⟩
        rw [List.take_of_length_le (by omega)]
        exact ha
      by_cases hl : s.length = 8
      · have ha : ¬ s.all isAsciiDigit = true := fun ha => this ⟨hl, ha⟩
        simp only [hl, Bool.not_eq_true] at ha ⊢
        simp [ha]
      · simp [hl]
  · simp [hp]

theorem searchFrom_cepRegex_pos (pos : Nat) (hpos : pos ≠ 0) (s : List Char) :
    searchFrom cepRegex pos s = false := by
  induction s generalizing pos with
  | nil => simp [searchFrom, matchAt_cepRegex, hpos]
  | cons c t ih => simp [searchFrom, matchAt_cepRegex, hpos, ih (pos + 1) (by omega)]

theorem searchFrom_cepRegex_zero (s : List Char) :
    searchFrom cepRegex 0 s = (decide (s.length = 8) && s.all isAsciiDigit) := by
  cases s with
  | nil => simp [searchFrom, matchAt_cepRegex]
  | cons c t =>
    simp [searchFrom, matchAt_cepRegex, searchFrom_cepRegex_pos 1 (by omega)]

theorem isAsciiDigit_iff (c : Char) : isAsciiDigit c = true ↔ '0' ≤ c ∧ c ≤ '9' := by
  simp [isAsciiDigit]

/-- The Validation Gate accepts exactly the strings of 8 ASCII digits. -/
theorem matchString_cepRegex_iff (s : String) :
    MatchString cepRegex s = true ↔ EightAsciiDigits s := by
  have hlen : s.length = s.toList.length := by cases s; rfl
  unfold MatchString EightAsciiDigits
  rw [searchFrom_cepRegex_zero, hlen]
  simp [isAsciiDigit_iff]

/-! ## Service B: lookup, weather and the pipeline handler -/

/-- Every effect of `Lookup` is an outbound call. -/
theorem Lookup_effects (lib : ServiceB.Lib) (c : ServiceB.CepService) (cep : String) :
    ∀ e ∈ (c.Lookup lib cep).2, ∃ req, e = Effect.httpDo (some req) := by
  intro e he
  unfold ServiceB.CepService.Lookup at he
  simp only at he
  split at he
  · simp at he
  · split at he
    · simp at he; exact ⟨_, he⟩
    · split at he
      · simp at he; exact ⟨_, he⟩
      · split at he
        · simp at he; exact ⟨_, he⟩
        · split at he <;> (simp at he; exact ⟨_, he⟩)

theorem weatherHandler_invalid (lib : ServiceB.Lib) (cepSvc : ServiceB.CepService)
    (weatherSvc : ServiceB.WeatherService) (r : ServiceB.Request)
    (h : MatchString cepRegex (r.queryGet "cep") = false) :
    ServiceB.weatherHandler lib cepSvc weatherSvc r =
      (httpError ServiceB.ErrMsgInvalidCep StatusUnprocessableEntity, []) := by
  simp [ServiceB.weatherHandler, h]

theorem weatherHandler_lookup_error (lib : ServiceB.Lib) (cepSvc : ServiceB.CepService)
    (weatherSvc : ServiceB.WeatherService) (r : ServiceB.Request) (err : Error)
    (h : MatchString cepRegex (r.queryGet "cep") = true)
    (herr : (cepSvc.Lookup lib (r.queryGet "cep")).1 = Except.error err) :
    ServiceB.weatherHandler lib cepSvc weatherSvc r =
      (httpError ServiceB.ErrMsgCepNotFound StatusNotFound,
        Effect.lookup (r.queryGet "cep") :: (cepSvc.Lookup lib (r.queryGet "cep")).2) := by
  simp [ServiceB.weatherHandler, h, herr]

theorem weatherHandler_weather_error (lib : ServiceB.Lib) (cepSvc : ServiceB.CepService)
    (weatherSvc : ServiceB.WeatherService) (r : ServiceB.Request) (city : String) (err : Error)
    (h : MatchString cepRegex (r.queryGet "cep") = true)
    (hcity : (cepSvc.Lookup lib (r.queryGet "cep")).1 = Except.ok city)
    (herr : (weatherSvc.GetTempC lib city).1 = Except.error err) :
    ServiceB.weatherHandler lib cepSvc weatherSvc r =
      (httpError "weather error" StatusInternalServerError,
        Effect.lookup (r.queryGet "cep") :: (cepSvc.Lookup lib (r.queryGet "cep")).2 ++
          Effect.getTempC city :: (weatherSvc.GetTempC lib city).2) := by
  simp [ServiceB.weatherHandler, h, hcity, herr, ServiceB.errorText]

theorem weatherHandler_ok (lib : ServiceB.Lib) (cepSvc : ServiceB.CepService)
    (weatherSvc : ServiceB.WeatherService) (r : ServiceB.Request) (city : String) (c : F64)
    (h : MatchString cepRegex (r.queryGet "cep") = true)
    (hcity : (cepSvc.Lookup lib (r.queryGet "cep")).1 = Except.ok city)
    (htemp : (weatherSvc.GetTempC lib city).1 = Except.ok c) :
    ServiceB.weatherHandler lib cepSvc weatherSvc r =
      ({ StatusCode := StatusOK, ContentType := "application/json",
         Body := encodeBody [
           ("city", JSONValue.str city),
           ("temp_C", JSONValue.num c),
           ("temp_F", JSONValue.num
             (F64.mulAdd lib.fusedMulAdd c (F64.ofRat 18 10) (F64.ofNat 32))),
           ("temp_K", JSONValue.num (F64.add c (F64.ofNat 273)))] },
        Effect.lookup (r.queryGet "cep") :: (cepSvc.Lookup lib (r.queryGet "cep")).2 ++
          Effect.getTempC city :: (weatherSvc.GetTempC lib city).2) := by
  simp [ServiceB.weatherHandler, h, hcity, htemp]

/-- The encoder writes the report exactly when its three numbers are finite. -/
theorem encodeBody_report (city : String) (c tF tK : F64) :
    encodeBody [("city", JSONValue.str city), ("temp_C", JSONValue.num c),
        ("temp_F", JSONValue.num tF), ("temp_K", JSONValue.num tK)] =
      if c.isFinite = true ∧ tF.isFinite = true ∧ tK.isFinite = true then
        Body.json [("city", JSONValue.str city), ("temp_C", JSONValue.num c),
          ("temp_F", JSONValue.num tF), ("temp_K", JSONValue.num tK)]
      else Body.empty := by
  simp [encodeBody, JSONValue.encodable]

/-! ## Checks of the `float64` model against known doubles -/

/-- The constant `1.8` is the double `0x1.ccccccccccccdp+0`. -/
theorem F64_const_1_8 : F64.ofRat 18 10 = F64.finite false 8106479329266893 (-52) := by
  decide

/-- The constant `64.4` is the double `0x1.019999999999ap+6`. -/
theorem F64_const_64_4 : F64.ofRat 644 10 = F64.finite false 4531747125041562 (-46) := by
  decide

/-- Small integers are represented exactly: `32 = 2^52 * 2^-47`, `273 = 273 * 2^44 * 2^-44`. -/
theorem F64_small_integers :
    F64.ofNat 32 = F64.finite false (2 ^ 52) (-47) ∧
    F64.ofNat 273 = F64.finite false (273 * 2 ^ 44) (-44) ∧
    F64.ofNat 0 = F64.finite false 0 (-1074) := by
  decide

set_option maxRecDepth 100000 in
/-- The model reproduces the textbook rounding `0.1 + 0.2 = 0.30000000000000004 ≠ 0.3`. -/
theorem F64_tenth_plus_fifth :
    F64.add (F64.ofRat 1 10) (F64.ofRat 2 10) = F64.finite false 5404319552844596 (-54) ∧
    F64.ofRat 3 10 = F64.finite false 5404319552844595 (-54) := by
  decide

/-- The doubles named in the scenarios, read without the rounding function:
`25 = 25·2^48·2^-48`, `77 = 77·2^46·2^-46`, `298 = 298·2^44·2^-44`, `18 = 18·2^48·2^-48`,
`291 = 291·2^44·2^-44` exactly, and `4531747125041562·2^-46` is the double nearest `64.4`
(the one Go prints as `64.4`). -/
theorem F64_scenario_doubles :
    F64.hasValue (F64.finite false (25 * 2 ^ 48) (-48)) 25 1 ∧
    F64.hasValue (F64.finite false (77 * 2 ^ 46) (-46)) 77 1 ∧
    F64.hasValue (F64.finite false (298 * 2 ^ 44) (-44)) 298 1 ∧
    F64.hasValue (F64.finite false (18 * 2 ^ 48) (-48)) 18 1 ∧
    F64.hasValue (F64.finite false (291 * 2 ^ 44) (-44)) 291 1 ∧
    F64.isNearest (F64.finite false 4531747125041562 (-46)) 644 10 := by
  decide

set_option maxRecDepth 100000 in
/-- At 25 degrees both compilations of `tempC*1.8 + 32` give the double 77. -/
theorem tempF_25 (fused : Bool) :
    F64.mulAdd fused (F64.finite false (25 * 2 ^ 48) (-48)) (F64.ofRat 18 10) (F64.ofNat 32) =
      F64.finite false (77 * 2 ^ 46) (-46) := by
  cases fused <;> decide

set_option maxRecDepth 100000 in
theorem tempK_25 :
    F64.add (F64.finite false (25 * 2 ^ 48) (-48)) (F64.ofNat 273) =
      F64.finite false (298 * 2 ^ 44) (-44) := by
  decide

set_option maxRecDepth 100000 in
/-- At 18 degrees both compilations of `tempC*1.8 + 32` give the double nearest 64.4. -/
theorem tempF_18 (fused : Bool) :
    F64.mulAdd fused (F64.finite false (18 * 2 ^ 48) (-48)) (F64.ofRat 18 10) (F64.ofNat 32) =
      F64.finite false 4531747125041562 (-46) := by
  cases fused <;> decide

set_option maxRecDepth 100000 in
theorem tempK_18 :
    F64.add (F64.finite false (18 * 2 ^ 48) (-48)) (F64.ofNat 273) =
      F64.finite false (291 * 2 ^ 44) (-44) := by
  decide

set_option maxRecDepth 100000 in
/-- The two compilations differ on other inputs: at the double `3.6` the fused result is one
unit in the last place below the unfused one. -/
theorem mulAdd_differs_at_3_6 :
    F64.ofRat 36 10 = F64.finite false 8106479329266893 (-51) ∧
    F64.mulAdd false (F64.finite false 8106479329266893 (-51)) (F64.ofRat 18 10) (F64.ofNat 32)
      ≠ F64.mulAdd true (F64.finite false 8106479329266893 (-51)) (F64.ofRat 18 10)
        (F64.ofNat 32) := by
  decide

set_option maxRecDepth 100000 in
/-- At the double `1e308` the Fahrenheit value overflows to infinity, fused or not. -/
theorem tempF_overflows_at_1e308 (fused : Bool) :
    F64.mulAdd fused (F64.finite false 5010420900022432 971) (F64.ofRat 18 10) (F64.ofNat 32) =
      F64.inf false := by
  cases fused <;> decide

/-! ## Telemetry bootstrap: the retry loop -/

theorem dialLoop_fail (env : PkgTracing.Env) (endpoint : String) (i : Nat)
    (conn : Option ClientConn) (err : Option Error) (fx : List TraceEffect) (e : Error)
    (hi : i ≤ 5) (h : env.dialContext i endpoint = Except.error e) :
    PkgTracing.dialLoop env endpoint i conn err fx =
      PkgTracing.dialLoop env endpoint (i + 1) none (some e)
        (fx ++ [TraceEffect.withTimeout 5, TraceEffect.dial i endpoint,
          TraceEffect.logPrintf
            (PkgTracing.ErrOTELProvider ++ " (tentativa " ++ toString i ++ "/5)") (some e),
          TraceEffect.sleep 2]) := by
  rw [PkgTracing.dialLoop]
  simp only [hi, if_true, h]

theorem dialLoop_ok (env : PkgTracing.Env) (endpoint : String) (i : Nat)
    (conn : Option ClientConn) (err : Option Error) (fx : List TraceEffect) (c : ClientConn)
    (hi : i ≤ 5) (h : env.dialContext i endpoint = Except.ok c) :
    PkgTracing.dialLoop env endpoint i conn err fx =
      ((some c, none), fx ++ [TraceEffect.withTimeout 5, TraceEffect.dial i endpoint]) := by
  rw [PkgTracing.dialLoop]
  simp only [hi, if_true, h]

/-- A collector that accepts the third attempt is dialled three times, not five, and the
tracer provider is installed: the loop stops at the first success. -/
theorem InitTracer_lateCollector :
    dialAttempts (PkgTracing.InitTracer lateCollector "service-a" "otel-collector:4317").2 =
      [1, 2, 3] ∧
    (installedProvider
      (PkgTracing.InitTracer lateCollector "service-a" "otel-collector:4317").2).isSome = true := by
  have hep : (if ("otel-collector:4317" == "") = true then "otel-collector:4317"
      else "otel-collector:4317") = "otel-collector:4317" := rfl
  unfold PkgTracing.InitTracer
  simp only [PkgTracing.resourceNew, hep]
  rw [dialLoop_fail lateCollector "otel-collector:4317" 1 _ _ _ _ (by omega) rfl,
    dialLoop_fail lateCollector "otel-collector:4317" 2 _ _ _ _ (by omega) rfl,
    dialLoop_ok lateCollector "otel-collector:4317" 3 _ _ _ _ (by omega) rfl]
  exact ⟨rfl, rfl⟩

/-- The two-argument `InitTracer` returns on every path. -/
theorem PkgTracing_InitTracer_returns (env : PkgTracing.Env) (serviceName endpoint : String) :
    ∃ sd, (PkgTracing.InitTracer env serviceName endpoint).1 = Outcome.returned sd := by
  unfold PkgTracing.InitTracer
  simp only
  split
  · exact ⟨_, rfl⟩
  · split
    · exact ⟨_, rfl⟩
    · split
      · exact ⟨_, rfl⟩
      · exact ⟨_, rfl⟩

/-! ## Service A: the nil request -/

/-- When the upstream request cannot be constructed, the gateway handler panics in
`client.Do(nil)`: the caller receives no status and no request is sent. -/
theorem handler_panics_without_request :
    ServiceA.handler (gatewayLibNoRequest "01001000") downClient "http://service-b:8081/%zz"
      { Method := "POST", Body := "" } = (ServiceA.Served.panicked, [Effect.decodeBody ""]) ∧
    (ServiceA.handler (gatewayLibNoRequest "01001000") downClient "http://service-b:8081/%zz"
      { Method := "POST", Body := "" }).1.status = none := by
  have h : MatchString cepRegex "01001000" = true := by decide
  simp [ServiceA.handler, gatewayLibNoRequest, MethodPost, h]
  rfl

/-! ## Claims -/

/-- C1: the Validation Gate `cepRegex.MatchString` (pattern `^\d{8}$`, the same in both
services) accepts a string if and only if it has exactly 8 characters, each an ASCII digit
`'0'..'9'`; in particular it rejects a sign, a separator, leading or trailing whitespace,
a single trailing newline, non-ASCII digits, and every length other than 8. -/
theorem C1_validation_gate_iff_eight_ascii_digits :
    (∀ s : String, MatchString cepRegex s = true ↔ EightAsciiDigits s) ∧
    MatchString cepRegex "01001000" = true ∧
    MatchString cepRegex "+1001000" = false ∧
    MatchString cepRegex "-1001000" = false ∧
    MatchString cepRegex "01001-000" = false ∧
    MatchString cepRegex "0100-000" = false ∧
    MatchString cepRegex " 01001000" = false ∧
    MatchString cepRegex "01001000 " = false ∧
    MatchString cepRegex " 1001000" = false ∧
    MatchString cepRegex "01001000\n" = false ∧
    MatchString cepRegex "０１００１０００" = false ∧
    MatchString cepRegex "٠١٠٠١٠٠٠" = false ∧
    MatchString cepRegex "" = false ∧
    MatchString cepRegex "123" = false ∧
    MatchString cepRegex "0100100" = false ∧
    MatchString cepRegex "010010000" = false := by
  refine ⟨matchString_cepRegex_iff, ?_, ?_, ?_, ?_, ?_, ?_, ?_, ?_, ?_, ?_, ?_, ?_, ?_, ?_, ?_⟩ <;>
    decide

/-- C2: for every request to `weatherHandler` whose `cep` query parameter is not exactly 8
decimal digits, the response is status 422 with the message "invalid zipcode", and the
handler performs no effect at all: neither `Lookup` nor `GetTempC` is invoked and no
outbound call is made. -/
theorem C2_invalid_cep_rejected_without_calls (lib : ServiceB.Lib)
    (cepSvc : ServiceB.CepService) (weatherSvc : ServiceB.WeatherService)
    (r : ServiceB.Request) (hbad : ¬ EightAsciiDigits (r.queryGet "cep")) :
    (ServiceB.weatherHandler lib cepSvc weatherSvc r).1.StatusCode = 422 ∧
    (ServiceB.weatherHandler lib cepSvc weatherSvc r).1.Body = Body.message "invalid zipcode" ∧
    (ServiceB.weatherHandler lib cepSvc weatherSvc r).2 = [] := by
  have h : MatchString cepRegex (r.queryGet "cep") = false := by
    cases hm : MatchString cepRegex (r.queryGet "cep") with
    | false => rfl
    | true => exact absurd ((matchString_cepRegex_iff _).mp hm) hbad
  rw [weatherHandler_invalid lib cepSvc weatherSvc r h]
  exact ⟨rfl, rfl, rfl⟩

/-- Witness of C2: the request `/weather?cep=123` of the specification's scenario. -/
theorem C2_invalid_cep_rejected_without_calls_witness :
    ¬ EightAsciiDigits ((weatherRequest "GET" "123").queryGet "cep") ∧
    (ServiceB.weatherHandler (stubLib "São Paulo" (F64.ofNat 18)) (stubCepSvc downClient)
      (stubWeatherSvc downClient) (weatherRequest "GET" "123")).1.StatusCode = 422 ∧
    (ServiceB.weatherHandler (stubLib "São Paulo" (F64.ofNat 18)) (stubCepSvc downClient)
      (stubWeatherSvc downClient) (weatherRequest "GET" "123")).1.Body =
        Body.message "invalid zipcode" ∧
    (ServiceB.weatherHandler (stubLib "São Paulo" (F64.ofNat 18)) (stubCepSvc downClient)
      (stubWeatherSvc downClient) (weatherRequest "GET" "123")).2 = [] :=
  ⟨by decide,
    C2_invalid_cep_rejected_without_calls (stubLib "São Paulo" (F64.ofNat 18))
      (stubCepSvc downClient) (stubWeatherSvc downClient) (weatherRequest "GET" "123")
      (by decide)⟩

/-- C3: for every valid postal code, if `CepService.Lookup` returns any error, then
`weatherHandler` responds with status 404 and the fixed message "can not find zipcode",
its effects are the `Lookup` call and what `Lookup` itself did, and `GetTempC` is never
invoked. Each kind of failure is such an error: request construction, transport, a
status other than 200 (`ErrCepAPI`), body decoding, and the semantic not-found
(`ErrCepNotFound`). -/
theorem C3_lookup_error_is_not_found (lib : ServiceB.Lib)
    (cepSvc : ServiceB.CepService) (weatherSvc : ServiceB.WeatherService)
    (r : ServiceB.Request) (err : Error)
    (hvalid : EightAsciiDigits (r.queryGet "cep"))
    (herr : (cepSvc.Lookup lib (r.queryGet "cep")).1 = Except.error err) :
    ((ServiceB.weatherHandler lib cepSvc weatherSvc r).1.StatusCode = 404 ∧
      (ServiceB.weatherHandler lib cepSvc weatherSvc r).1.Body =
        Body.message "can not find zipcode" ∧
      (ServiceB.weatherHandler lib cepSvc weatherSvc r).2 =
        Effect.lookup (r.queryGet "cep") :: (cepSvc.Lookup lib (r.queryGet "cep")).2 ∧
      ∀ city, Effect.getTempC city ∉ (ServiceB.weatherHandler lib cepSvc weatherSvc r).2) ∧
    (∀ (lib' : ServiceB.Lib) (c : ServiceB.CepService) (cep : String),
      (∀ e, lib'.newRequest MethodGet (c.BaseURL ++ "/" ++ cep ++ "/json/") = Except.error e →
        (c.Lookup lib' cep).1 = Except.error e) ∧
      (∀ req e, lib'.newRequest MethodGet (c.BaseURL ++ "/" ++ cep ++ "/json/") = Except.ok req →
        c.HTTPClient.Do (some req) = Except.error e → (c.Lookup lib' cep).1 = Except.error e) ∧
      (∀ req resp, lib'.newRequest MethodGet (c.BaseURL ++ "/" ++ cep ++ "/json/") = Except.ok req →
        c.HTTPClient.Do (some req) = Except.ok resp → resp.StatusCode ≠ 200 →
        (c.Lookup lib' cep).1 = Except.error Error.ErrCepAPI) ∧
      (∀ req resp e, lib'.newRequest MethodGet (c.BaseURL ++ "/" ++ cep ++ "/json/") = Except.ok req →
        c.HTTPClient.Do (some req) = Except.ok resp → resp.StatusCode = 200 →
        lib'.decodeCepResp resp.Body = Except.error e → (c.Lookup lib' cep).1 = Except.error e) ∧
      (∀ req resp data, lib'.newRequest MethodGet (c.BaseURL ++ "/" ++ cep ++ "/json/") = Except.ok req →
        c.HTTPClient.Do (some req) = Except.ok resp → resp.StatusCode = 200 →
        lib'.decodeCepResp resp.Body = Except.ok data →
        (data.Erro = true ∨ data.Localidade = "") →
        (c.Lookup lib' cep).1 = Except.error Error.ErrCepNotFound)) := by
  have h : MatchString cepRegex (r.queryGet "cep") = true :=
    (matchString_cepRegex_iff _).mpr hvalid
  refine ⟨?_, ?_⟩
  · rw [weatherHandler_lookup_error lib cepSvc weatherSvc r err h herr]
    refine ⟨rfl, rfl, rfl, ?_⟩
    intro city hmem
    simp only [List.mem_cons] at hmem
    rcases hmem with hmem | hmem
    · cases hmem
    · obtain ⟨req, hreq⟩ := Lookup_effects lib cepSvc _ _ hmem
      cases hreq
  · intro lib' c cep
    refine ⟨?_, ?_, ?_, ?_, ?_⟩
    · intro e h1
      simp [ServiceB.CepService.Lookup, h1]
    · intro req e h1 h2
      simp [ServiceB.CepService.Lookup, h1, h2]
    · intro req resp h1 h2 h3
      simp [ServiceB.CepService.Lookup, h1, h2, h3, StatusOK]
    · intro req resp e h1 h2 h3 h4
      simp [ServiceB.CepService.Lookup, h1, h2, h3, h4, StatusOK]
    · intro req resp data h1 h2 h3 h4 h5
      simp [ServiceB.CepService.Lookup, h1, h2, h3, h4, StatusOK, h5]

/-- Witness of C3: postal code `01001000` with the lookup service unreachable. -/
theorem C3_lookup_error_is_not_found_witness :
    (ServiceB.weatherHandler (stubLib "São Paulo" (F64.ofNat 18)) (stubCepSvc downClient)
      (stubWeatherSvc (fixedClient 200 "")) (weatherRequest "GET" "01001000")).1.StatusCode
        = 404 :=
  (C3_lookup_error_is_not_found (stubLib "São Paulo" (F64.ofNat 18)) (stubCepSvc downClient)
    (stubWeatherSvc (fixedClient 200 "")) (weatherRequest "GET" "01001000")
    (Error.lib "connection refused") (by decide) rfl).1.1

/-- C4: for every valid postal code for which `Lookup` succeeds with a city, if
`GetTempC` returns any error, then `weatherHandler` responds with status 500 and the fixed
message "weather error", and the body carries no report field at all. Each kind of failure
is such an error: request construction, transport, a status other than 200
(`ErrWeatherAPI`) and body decoding. -/
theorem C4_weather_error_is_server_error (lib : ServiceB.Lib)
    (cepSvc : ServiceB.CepService) (weatherSvc : ServiceB.WeatherService)
    (r : ServiceB.Request) (city : String) (err : Error)
    (hvalid : EightAsciiDigits (r.queryGet "cep"))
    (hcity : (cepSvc.Lookup lib (r.queryGet "cep")).1 = Except.ok city)
    (herr : (weatherSvc.GetTempC lib city).1 = Except.error err) :
    ((ServiceB.weatherHandler lib cepSvc weatherSvc r).1.StatusCode = 500 ∧
      (ServiceB.weatherHandler lib cepSvc weatherSvc r).1.Body = Body.message "weather error" ∧
      (ServiceB.weatherHandler lib cepSvc weatherSvc r).1.Body.fields = []) ∧
    (∀ (lib' : ServiceB.Lib) (w : ServiceB.WeatherService) (place : String),
      (∀ e, lib'.newRequest MethodGet (w.BaseURL ++ "/current.json?key=" ++ w.APIKey ++ "&q="
          ++ lib'.queryEscape place) = Except.error e →
        (w.GetTempC lib' place).1 = Except.error e) ∧
      (∀ req e, lib'.newRequest MethodGet (w.BaseURL ++ "/current.json?key=" ++ w.APIKey ++ "&q="
          ++ lib'.queryEscape place) = Except.ok req →
        w.HTTPClient.Do (some req) = Except.error e →
        (w.GetTempC lib' place).1 = Except.error e) ∧
      (∀ req resp, lib'.newRequest MethodGet (w.BaseURL ++ "/current.json?key=" ++ w.APIKey
          ++ "&q=" ++ lib'.queryEscape place) = Except.ok req →
        w.HTTPClient.Do (some req) = Except.ok resp → resp.StatusCode ≠ 200 →
        (w.GetTempC lib' place).1 = Except.error Error.ErrWeatherAPI) ∧
      (∀ req resp e, lib'.newRequest MethodGet (w.BaseURL ++ "/current.json?key=" ++ w.APIKey
          ++ "&q=" ++ lib'.queryEscape place) = Except.ok req →
        w.HTTPClient.Do (some req) = Except.ok resp → resp.StatusCode = 200 →
        lib'.decodeTempC resp.Body = Except.error e →
        (w.GetTempC lib' place).1 = Except.error e)) := by
  have h : MatchString cepRegex (r.queryGet "cep") = true :=
    (matchString_cepRegex_iff _).mpr hvalid
  refine ⟨?_, ?_⟩
  · rw [weatherHandler_weather_error lib cepSvc weatherSvc r city err h hcity herr]
    exact ⟨rfl, rfl, rfl⟩
  · intro lib' w place
    refine ⟨?_, ?_, ?_, ?_⟩
    · intro e h1
      simp [ServiceB.WeatherService.GetTempC, h1]
    · intro req e h1 h2
      simp [ServiceB.WeatherService.GetTempC, h1, h2]
    · intro req resp h1 h2 h3
      simp [ServiceB.WeatherService.GetTempC, h1, h2, h3, StatusOK]
    · intro req resp e h1 h2 h3 h4
      simp [ServiceB.WeatherService.GetTempC, h1, h2, h3, h4, StatusOK]

/-- Witness of C4: postal code `01001000` resolves to São Paulo, the weather service is
unreachable. -/
theorem C4_weather_error_is_server_error_witness :
    (ServiceB.weatherHandler (stubLib "São Paulo" (F64.ofNat 18)) (stubCepSvc (fixedClient 200 ""))
      (stubWeatherSvc downClient) (weatherRequest "GET" "01001000")).1.StatusCode = 500 ∧
    (ServiceB.weatherHandler (stubLib "São Paulo" (F64.ofNat 18)) (stubCepSvc (fixedClient 200 ""))
      (stubWeatherSvc downClient) (weatherRequest "GET" "01001000")).1.Body =
        Body.message "weather error" ∧
    (ServiceB.weatherHandler (stubLib "São Paulo" (F64.ofNat 18)) (stubCepSvc (fixedClient 200 ""))
      (stubWeatherSvc downClient) (weatherRequest "GET" "01001000")).1.Body.fields = [] :=
  (C4_weather_error_is_server_error (stubLib "São Paulo" (F64.ofNat 18))
    (stubCepSvc (fixedClient 200 "")) (stubWeatherSvc downClient)
    (weatherRequest "GET" "01001000") "São Paulo" (Error.lib "connection refused")
    (by decide) rfl rfl).1

/-- C5, as stated, fails where the Fahrenheit value overflows: for the valid postal code
`01001000`, city São Paulo and the Celsius value `1e308` (the double
`5010420900022432·2^971`), `tempC*1.8 + 32` is infinite, the encoder refuses it, the source
discards the encoder's error, and the response is status 200 with an empty body, not the
four-field payload. -/
theorem C5_overflow_leaves_empty_body :
    EightAsciiDigits ((weatherRequest "GET" "01001000").queryGet "cep") ∧
    ((stubCepSvc (fixedClient 200 "")).Lookup
      (stubLib "São Paulo" (F64.finite false 5010420900022432 971)) "01001000").1 =
        Except.ok "São Paulo" ∧
    ((stubWeatherSvc (fixedClient 200 "")).GetTempC
      (stubLib "São Paulo" (F64.finite false 5010420900022432 971)) "São Paulo").1 =
        Except.ok (F64.finite false 5010420900022432 971) ∧
    (ServiceB.weatherHandler (stubLib "São Paulo" (F64.finite false 5010420900022432 971))
      (stubCepSvc (fixedClient 200 "")) (stubWeatherSvc (fixedClient 200 ""))
      (weatherRequest "GET" "01001000")).1 =
        { StatusCode := 200, ContentType := "application/json", Body := Body.empty } ∧
    (ServiceB.weatherHandler (stubLib "São Paulo" (F64.finite false 5010420900022432 971))
      (stubCepSvc (fixedClient 200 "")) (stubWeatherSvc (fixedClient 200 ""))
      (weatherRequest "GET" "01001000")).1.Body.fields = [] := by
  have h := weatherHandler_ok (stubLib "São Paulo" (F64.finite false 5010420900022432 971))
    (stubCepSvc (fixedClient 200 "")) (stubWeatherSvc (fixedClient 200 ""))
    (weatherRequest "GET" "01001000") "São Paulo" (F64.finite false 5010420900022432 971)
    (by decide) rfl rfl
  rw [h, encodeBody_report, tempF_overflows_at_1e308]
  exact ⟨by decide, rfl, rfl, rfl, rfl⟩

/-- C5, amended: for every valid postal code for which `Lookup` returns `city` and
`GetTempC` returns the Celsius value `c`, the handler answers with status 200; when `c`,
`c*1.8+32` and `c+273` are all finite `float64` values, the payload is exactly
`city: city, temp_C: c, temp_F: c*1.8+32, temp_K: c+273` (with `c*1.8+32` fused or not, as
compiled); otherwise the body is empty. The conversion is exact on the specification's
inputs, however compiled: `c = 25` gives `temp_F = 77` and `temp_K = 298`; `c = 18` gives
`temp_F = 64.4` (the double nearest it) and `temp_K = 291`. -/
theorem C5_success_payload (lib : ServiceB.Lib)
    (cepSvc : ServiceB.CepService) (weatherSvc : ServiceB.WeatherService)
    (r : ServiceB.Request) (city : String) (c : F64)
    (hvalid : EightAsciiDigits (r.queryGet "cep"))
    (hcity : (cepSvc.Lookup lib (r.queryGet "cep")).1 = Except.ok city)
    (htemp : (weatherSvc.GetTempC lib city).1 = Except.ok c) :
    (ServiceB.weatherHandler lib cepSvc weatherSvc r).1.StatusCode = 200 ∧
    ((c.isFinite = true ∧
        (F64.mulAdd lib.fusedMulAdd c (F64.ofRat 18 10) (F64.ofNat 32)).isFinite = true ∧
        (F64.add c (F64.ofNat 273)).isFinite = true) →
      (ServiceB.weatherHandler lib cepSvc weatherSvc r).1.Body = Body.json [
        ("city", JSONValue.str city),
        ("temp_C", JSONValue.num c),
        ("temp_F", JSONValue.num
          (F64.mulAdd lib.fusedMulAdd c (F64.ofRat 18 10) (F64.ofNat 32))),
        ("temp_K", JSONValue.num (F64.add c (F64.ofNat 273)))]) ∧
    (¬ (c.isFinite = true ∧
        (F64.mulAdd lib.fusedMulAdd c (F64.ofRat 18 10) (F64.ofNat 32)).isFinite = true ∧
        (F64.add c (F64.ofNat 273)).isFinite = true) →
      (ServiceB.weatherHandler lib cepSvc weatherSvc r).1.Body = Body.empty) ∧
    (c = F64.finite false (25 * 2 ^ 48) (-48) →
      (ServiceB.weatherHandler lib cepSvc weatherSvc r).1.Body = Body.json [
        ("city", JSONValue.str city),
        ("temp_C", JSONValue.num (F64.finite false (25 * 2 ^ 48) (-48))),
        ("temp_F", JSONValue.num (F64.finite false (77 * 2 ^ 46) (-46))),
        ("temp_K", JSONValue.num (F64.finite false (298 * 2 ^ 44) (-44)))]) ∧
    (c = F64.finite false (18 * 2 ^ 48) (-48) →
      (ServiceB.weatherHandler lib cepSvc weatherSvc r).1.Body = Body.json [
        ("city", JSONValue.str city),
        ("temp_C", JSONValue.num (F64.finite false (18 * 2 ^ 48) (-48))),
        ("temp_F", JSONValue.num (F64.finite false 4531747125041562 (-46))),
        ("temp_K", JSONValue.num (F64.finite false (291 * 2 ^ 44) (-44)))]) ∧
    (F64.hasValue (F64.finite false (25 * 2 ^ 48) (-48)) 25 1 ∧
      F64.hasValue (F64.finite false (77 * 2 ^ 46) (-46)) 77 1 ∧
      F64.hasValue (F64.finite false (298 * 2 ^ 44) (-44)) 298 1 ∧
      F64.hasValue (F64.finite false (18 * 2 ^ 48) (-48)) 18 1 ∧
      F64.hasValue (F64.finite false (291 * 2 ^ 44) (-44)) 291 1 ∧
      F64.isNearest (F64.finite false 4531747125041562 (-46)) 644 10) := by
  have h : MatchString cepRegex (r.queryGet "cep") = true :=
    (matchString_cepRegex_iff _).mpr hvalid
  rw [weatherHandler_ok lib cepSvc weatherSvc r city c h hcity htemp]
  refine ⟨rfl, ?_, ?_, ?_, ?_, F64_scenario_doubles⟩
  · intro hfin
    show encodeBody _ = _
    rw [encodeBody_report, if_pos hfin]
  · intro hfin
    show encodeBody _ = _
    rw [encodeBody_report, if_neg hfin]
  · intro hc
    subst hc
    show encodeBody _ = _
    rw [encodeBody_report, tempF_25, tempK_25]
    rfl
  · intro hc
    subst hc
    show encodeBody _ = _
    rw [encodeBody_report, tempF_18, tempK_18]
    rfl

/-- Witness of C5: the end-to-end scenario of the specification, postal code `01001000`,
city São Paulo, 18 degrees Celsius, with the multiply-add compiled unfused and fused. -/
theorem C5_success_payload_witness :
    ((ServiceB.weatherHandler (stubLib "São Paulo" (F64.finite false (18 * 2 ^ 48) (-48)))
      (stubCepSvc (fixedClient 200 "")) (stubWeatherSvc (fixedClient 200 ""))
      (weatherRequest "GET" "01001000")).1.StatusCode = 200 ∧
    (ServiceB.weatherHandler (stubLib "São Paulo" (F64.finite false (18 * 2 ^ 48) (-48)))
      (stubCepSvc (fixedClient 200 "")) (stubWeatherSvc (fixedClient 200 ""))
      (weatherRequest "GET" "01001000")).1.Body =
        Body.json [
          ("city", JSONValue.str "São Paulo"),
          ("temp_C", JSONValue.num (F64.finite false (18 * 2 ^ 48) (-48))),
          ("temp_F", JSONValue.num (F64.finite false 4531747125041562 (-46))),
          ("temp_K", JSONValue.num (F64.finite false (291 * 2 ^ 44) (-44)))]) ∧
    (ServiceB.weatherHandler (stubLibFused "São Paulo" (F64.finite false (18 * 2 ^ 48) (-48)))
      (stubCepSvc (fixedClient 200 "")) (stubWeatherSvc (fixedClient 200 ""))
      (weatherRequest "GET" "01001000")).1.Body =
        Body.json [
          ("city", JSONValue.str "São Paulo"),
          ("temp_C", JSONValue.num (F64.finite false (18 * 2 ^ 48) (-48))),
          ("temp_F", JSONValue.num (F64.finite false 4531747125041562 (-46))),
          ("temp_K", JSONValue.num (F64.finite false (291 * 2 ^ 44) (-44)))] :=
  have h := C5_success_payload (stubLib "São Paulo" (F64.finite false (18 * 2 ^ 48) (-48)))
    (stubCepSvc (fixedClient 200 "")) (stubWeatherSvc (fixedClient 200 ""))
    (weatherRequest "GET" "01001000") "São Paulo" (F64.finite false (18 * 2 ^ 48) (-48))
    (by decide) rfl rfl
  have hf := C5_success_payload
    (stubLibFused "São Paulo" (F64.finite false (18 * 2 ^ 48) (-48)))
    (stubCepSvc (fixedClient 200 "")) (stubWeatherSvc (fixedClient 200 ""))
    (weatherRequest "GET" "01001000") "São Paulo" (F64.finite false (18 * 2 ^ 48) (-48))
    (by decide) rfl rfl
  ⟨⟨h.1, h.2.2.2.2.1 rfl⟩, hf.2.2.2.2.1 rfl⟩

/-- C7 at the failing input: the one-argument `InitTracer` ends the process (`log.Fatalf`)
when `grpc.Dial` reports an error, and it does so for every environment in which the dial
or the exporter construction fails; the two-argument `InitTracer` returns a shutdown
function on every path. -/
theorem C7_one_argument_InitTracer_exits :
    (ServiceAPkgTracing.InitTracer dialErrorEnv "service-b").1 = Outcome.exited 1 ∧
    (∀ (env : ServiceAPkgTracing.Env) (name : String) (e : Error) (conn : ClientConn),
      (env.dial (if env.getenv "OTEL_EXPORTER_OTLP_ENDPOINT" == "" then "otel-collector:4317"
          else env.getenv "OTEL_EXPORTER_OTLP_ENDPOINT") = Except.error e →
        (ServiceAPkgTracing.InitTracer env name).1 = Outcome.exited 1) ∧
      (env.dial (if env.getenv "OTEL_EXPORTER_OTLP_ENDPOINT" == "" then "otel-collector:4317"
          else env.getenv "OTEL_EXPORTER_OTLP_ENDPOINT") = Except.ok conn →
        env.newExporter (some conn) = Except.error e →
        (ServiceAPkgTracing.InitTracer env name).1 = Outcome.exited 1)) ∧
    (∀ (env : PkgTracing.Env) (name endpoint : String),
      ∃ sd, (PkgTracing.InitTracer env name endpoint).1 = Outcome.returned sd) := by
  refine ⟨by decide, ?_, PkgTracing_InitTracer_returns⟩
  intro env name e conn
  refine ⟨?_, ?_⟩
  · intro h
    unfold ServiceAPkgTracing.InitTracer
    simp only [h]
  · intro h1 h2
    unfold ServiceAPkgTracing.InitTracer
    simp only [h1, h2]

/-- C8: the gateway handler decides by the first failing check, in the order method, body
decode, postal-code validation. A method other than POST gives 405 whatever the body is,
and the body is not decoded; a POST whose body does not decode gives 400; a POST whose
body decodes to a `cep` that is not 8 digits gives 422; in these three cases no request
goes to the pipeline. A transport failure of the upstream call (for the request the
handler constructed) gives 502, and the four statuses are pairwise distinct. -/
theorem C8_gateway_checks_in_order (lib : ServiceA.Lib) (client : HTTPClient) (bURL : String)
    (r : ServiceA.Request) :
    (r.Method ≠ "POST" →
      (ServiceA.handler lib client bURL r).1.status = some 405 ∧
      (ServiceA.handler lib client bURL r).2 = []) ∧
    (∀ e, r.Method = "POST" → lib.decodeCepReq r.Body = Except.error e →
      (ServiceA.handler lib client bURL r).1.status = some 400 ∧
      (ServiceA.handler lib client bURL r).2 = [Effect.decodeBody r.Body]) ∧
    (∀ input, r.Method = "POST" → lib.decodeCepReq r.Body = Except.ok input →
      ¬ EightAsciiDigits input.CEP →
      (ServiceA.handler lib client bURL r).1.status = some 422 ∧
      (ServiceA.handler lib client bURL r).2 = [Effect.decodeBody r.Body]) ∧
    (∀ input req e, r.Method = "POST" → lib.decodeCepReq r.Body = Except.ok input →
      EightAsciiDigits input.CEP →
      lib.newRequest "GET" (bURL ++ "?cep=" ++ input.CEP) = Except.ok req →
      client.Do (some req) = Except.error e →
      (ServiceA.handler lib client bURL r).1.status = some 502) ∧
    (StatusMethodNotAllowed ≠ StatusBadRequest ∧
      StatusMethodNotAllowed ≠ StatusUnprocessableEntity ∧
      StatusMethodNotAllowed ≠ StatusBadGateway ∧
      StatusBadRequest ≠ StatusUnprocessableEntity ∧
      StatusBadRequest ≠ StatusBadGateway ∧
      StatusUnprocessableEntity ≠ StatusBadGateway) := by
  refine ⟨?_, ?_, ?_, ?_, by decide⟩
  · intro hm
    have hm' : r.Method ≠ MethodPost := hm
    simp [ServiceA.handler, hm']
    rfl
  · intro e hm hd
    have hm' : r.Method = MethodPost := hm
    simp [ServiceA.handler, hm', hd]
    rfl
  · intro input hm hd hbad
    have hm' : r.Method = MethodPost := hm
    have h : MatchString cepRegex input.CEP = false := by
      cases hmatch : MatchString cepRegex input.CEP with
      | false => rfl
      | true => exact absurd ((matchString_cepRegex_iff _).mp hmatch) hbad
    simp [ServiceA.handler, hm', hd, h]
    rfl
  · intro input req e hm hd hvalid hreq hdo
    have hm' : r.Method = MethodPost := hm
    have h : MatchString cepRegex input.CEP = true := (matchString_cepRegex_iff _).mpr hvalid
    have hreq' : lib.newRequest MethodGet (bURL ++ "?cep=" ++ input.CEP) = Except.ok req := hreq
    simp [ServiceA.handler, hm', hd, h, hreq', hdo]
    rfl

/-- Witness of C8: a GET request, a POST with an undecodable body, a POST carrying the
postal code `123`, and a POST carrying `01001000` while the pipeline is unreachable. -/
theorem C8_gateway_checks_in_order_witness :
    (ServiceA.handler (gatewayLib "01001000") downClient "http://service-b:8081/weather"
      { Method := "GET", Body := "" }).1.status = some 405 ∧
    (ServiceA.handler gatewayLibBadBody downClient "http://service-b:8081/weather"
      { Method := "POST", Body := "not json" }).1.status = some 400 ∧
    (ServiceA.handler (gatewayLib "123") downClient "http://service-b:8081/weather"
      { Method := "POST", Body := "" }).1.status = some 422 ∧
    (ServiceA.handler (gatewayLib "01001000") downClient "http://service-b:8081/weather"
      { Method := "POST", Body := "" }).1.status = some 502 :=
  ⟨((C8_gateway_checks_in_order (gatewayLib "01001000") downClient
      "http://service-b:8081/weather" { Method := "GET", Body := "" }).1 (by decide)).1,
    ((C8_gateway_checks_in_order gatewayLibBadBody downClient
      "http://service-b:8081/weather" { Method := "POST", Body := "not json" }).2.1
      (Error.lib "unexpected end of JSON input") rfl rfl).1,
    ((C8_gateway_checks_in_order (gatewayLib "123") downClient
      "http://service-b:8081/weather" { Method := "POST", Body := "" }).2.2.1
      { CEP := "123" } rfl rfl (by decide)).1,
    (C8_gateway_checks_in_order (gatewayLib "01001000") downClient
      "http://service-b:8081/weather" { Method := "POST", Body := "" }).2.2.2.1
      { CEP := "01001000" }
      (HTTPRequest.mk "GET" "http://service-b:8081/weather?cep=01001000")
      (Error.lib "connection refused") rfl rfl (by decide) rfl rfl⟩

/-- C9, as stated, fails for a 2xx status other than 200: on status 201 with a body that
decodes to the city São Paulo and no not-found flag, `Lookup` returns `ErrCepAPI`, not the
city. -/
theorem C9_status_201_is_ErrCepAPI :
    ((stubCepSvc (fixedClient 201 "")).Lookup (stubLib "São Paulo" (F64.ofNat 18))
      "01001000").1 = Except.error Error.ErrCepAPI ∧
    ((stubCepSvc (fixedClient 201 "")).Lookup (stubLib "São Paulo" (F64.ofNat 18))
      "01001000").1 ≠ Except.ok "São Paulo" := by
  refine ⟨rfl, ?_⟩
  intro h
  cases h

/-- C9, amended: for every upstream response received by `Lookup` whose status code is
exactly 200 and whose body decodes: if the not-found flag `erro` is set or `localidade` is
empty, `Lookup` returns `ErrCepNotFound`; otherwise it returns the decoded `localidade`,
without error. -/
theorem C9_lookup_on_status_200 (lib : ServiceB.Lib) (c : ServiceB.CepService) (cep : String)
    (req : HTTPRequest) (resp : HTTPResponse) (data : ServiceB.cepResp)
    (hreq : lib.newRequest "GET" (c.BaseURL ++ "/" ++ cep ++ "/json/") = Except.ok req)
    (hdo : c.HTTPClient.Do (some req) = Except.ok resp)
    (hstatus : resp.StatusCode = 200)
    (hdecode : lib.decodeCepResp resp.Body = Except.ok data) :
    ((data.Erro = true ∨ data.Localidade = "") →
      (c.Lookup lib cep).1 = Except.error Error.ErrCepNotFound) ∧
    (¬ (data.Erro = true ∨ data.Localidade = "") →
      (c.Lookup lib cep).1 = Except.ok data.Localidade) := by
  have hreq' : lib.newRequest MethodGet (c.BaseURL ++ "/" ++ cep ++ "/json/") = Except.ok req :=
    hreq
  refine ⟨?_, ?_⟩
  · intro h
    simp [ServiceB.CepService.Lookup, hreq', hdo, hstatus, hdecode, StatusOK, h]
  · intro h
    simp [ServiceB.CepService.Lookup, hreq', hdo, hstatus, hdecode, StatusOK, h]

/-- Witness of C9: status 200 with a body that decodes to the city São Paulo. -/
theorem C9_lookup_on_status_200_witness :
    ((stubCepSvc (fixedClient 200 "")).Lookup (stubLib "São Paulo" (F64.ofNat 18))
      "01001000").1 = Except.ok "São Paulo" :=
  (C9_lookup_on_status_200 (stubLib "São Paulo" (F64.ofNat 18)) (stubCepSvc (fixedClient 200 ""))
    "01001000" { Method := "GET", URL := "https://viacep.com.br/ws/01001000/json/" }
    { StatusCode := 200, Body := "" } { Localidade := "São Paulo", Erro := false }
    rfl rfl rfl rfl).2 (by decide)

/-- C10 at the failing input: `weatherHandler` never reads the method. A POST request with
the valid postal code `01001000` is served like a GET: `Lookup` and `GetTempC` are both
invoked and the report is returned with status 200; in general two requests with the same
query get the same response and effects, whatever their methods. -/
theorem C10_weatherHandler_serves_any_method :
    (ServiceB.weatherHandler (stubLib "São Paulo" (F64.ofNat 18)) (stubCepSvc (fixedClient 200 ""))
      (stubWeatherSvc (fixedClient 200 "")) (weatherRequest "POST" "01001000")).1.StatusCode
        = 200 ∧
    (ServiceB.weatherHandler (stubLib "São Paulo" (F64.ofNat 18)) (stubCepSvc (fixedClient 200 ""))
      (stubWeatherSvc (fixedClient 200 "")) (weatherRequest "POST" "01001000")).2 =
        [Effect.lookup "01001000",
          Effect.httpDo (some (HTTPRequest.mk "GET" "https://viacep.com.br/ws/01001000/json/")),
          Effect.getTempC "São Paulo",
          Effect.httpDo (some (HTTPRequest.mk "GET"
            "http://api.weatherapi.com/v1/current.json?key=key&q=São Paulo"))] ∧
    (∀ (lib : ServiceB.Lib) (cepSvc : ServiceB.CepService)
      (weatherSvc : ServiceB.WeatherService) (m₁ m₂ : String) (q : List (String × String)),
      ServiceB.weatherHandler lib cepSvc weatherSvc { Method := m₁, Query := q } =
        ServiceB.weatherHandler lib cepSvc weatherSvc { Method := m₂, Query := q }) := by
  refine ⟨?_, ?_, ?_⟩
  · have h := weatherHandler_ok (stubLib "São Paulo" (F64.ofNat 18))
      (stubCepSvc (fixedClient 200 "")) (stubWeatherSvc (fixedClient 200 ""))
      (weatherRequest "POST" "01001000") "São Paulo" (F64.ofNat 18) (by decide) rfl rfl
    rw [h]
    rfl
  · have h := weatherHandler_ok (stubLib "São Paulo" (F64.ofNat 18))
      (stubCepSvc (fixedClient 200 "")) (stubWeatherSvc (fixedClient 200 ""))
      (weatherRequest "POST" "01001000") "São Paulo" (F64.ofNat 18) (by decide) rfl rfl
    rw [h]
    decide
  · intro lib cepSvc weatherSvc m₁ m₂ q
    rfl

end Otel
